import Mathlib

/-!
Verification of the TgBee update-ingestion and dispatch engine.

This file is a shallow embedding of the core of the TgBee repository
(`TgBee/bot.py`, `TgBee/handlers.py`, `TgBee/filters.py`, `TgBee/types.py`,
`TgBee/webhook.py`): the `Update` data model, the two `Handler` classes,
the `Filter` algebra, the polling loop of `Client.start_polling`, the
batch-consumption cursor logic, the webhook request handler
`Client._handle_webhook_request`, the rate limiter
`Client._rate_limited_api_call`, and `Update.from_dict`.

Python coroutines are embedded as pure functions returning explicit
outcome records (logs, queued items, results); the concurrent rate
limiter is embedded as a small-step interleaving machine.  Sub-payload
deserialization (`Message.from_dict` field mapping and friends) is out
of scope per the specification; sub-objects are carried opaquely.
-/

namespace TgBee

/-- The fourteen update-kind fields of the `Update` dataclass in
`TgBee/types.py` (lines 514-529). -/
inductive UpdateKind
  | message
  | edited_message
  | channel_post
  | edited_channel_post
  | inline_query
  | chosen_inline_result
  | callback_query
  | shipping_query
  | pre_checkout_query
  | poll
  | poll_answer
  | my_chat_member
  | chat_member
  | chat_join_request
  deriving DecidableEq, Repr

/-- The `Message` record (`types.py`); only the fields the verified core
inspects are carried, the rest of the field mapping is boilerplate out of
scope per the spec. -/
structure Message where
  text : Option String := none
  deriving DecidableEq, Repr

/-- An opaque sub-payload record (InlineQuery, CallbackQuery, Poll, ...):
none of the specified core logic inspects its fields, so it is carried as
an uninterpreted tag. -/
structure Obj where
  tag : Nat := 0
  deriving DecidableEq, Repr

/-- The value stored in one populated kind field of an `Update`. -/
inductive Payload
  | msg (m : Message)
  | obj (o : Obj)
  deriving DecidableEq, Repr

/-- The `Update` dataclass of `types.py` (lines 513-529): an
`update_id` plus fourteen optional kind fields. -/
structure Update where
  update_id : Int
  message : Option Message := none
  edited_message : Option Message := none
  channel_post : Option Message := none
  edited_channel_post : Option Message := none
  inline_query : Option Obj := none
  chosen_inline_result : Option Obj := none
  callback_query : Option Obj := none
  shipping_query : Option Obj := none
  pre_checkout_query : Option Obj := none
  poll : Option Obj := none
  poll_answer : Option Obj := none
  my_chat_member : Option Obj := none
  chat_member : Option Obj := none
  chat_join_request : Option Obj := none
  deriving DecidableEq, Repr

/-- `getattr(update, kind_name)` for the fourteen kind fields: the value
of the requested kind attribute (possibly `None`). -/
def Update.getKind (u : Update) : UpdateKind → Option Payload
  | .message => u.message.map .msg
  | .edited_message => u.edited_message.map .msg
  | .channel_post => u.channel_post.map .msg
  | .edited_channel_post => u.edited_channel_post.map .msg
  | .inline_query => u.inline_query.map .obj
  | .chosen_inline_result => u.chosen_inline_result.map .obj
  | .callback_query => u.callback_query.map .obj
  | .shipping_query => u.shipping_query.map .obj
  | .pre_checkout_query => u.pre_checkout_query.map .obj
  | .poll => u.poll.map .obj
  | .poll_answer => u.poll_answer.map .obj
  | .my_chat_member => u.my_chat_member.map .obj
  | .chat_member => u.chat_member.map .obj
  | .chat_join_request => u.chat_join_request.map .obj

/-- `hasattr(update, kind_name)`: every instance of the `Update`
dataclass carries all fourteen kind attributes, so for a valid kind name
the attribute always exists. -/
def hasattrKind (_u : Update) (_k : UpdateKind) : Bool := true

/-! ## Filters (`TgBee/filters.py`, lines 5-19)

`Filter` wraps a boolean predicate; `__and__`, `__or__`, `__invert__`
build new `Filter`s from the boolean combination of the operands'
results. -/

/-- The `Filter` class of `filters.py`: a wrapped boolean predicate over
updates. -/
structure Filter where
  func : Update → Bool

/-- `Filter.__call__`: evaluate the wrapped predicate. -/
def Filter.call (f : Filter) (u : Update) : Bool := f.func u

/-- `Filter.__and__`: `lambda update: self(update) and other(update)`. -/
def Filter.and (f g : Filter) : Filter := ⟨fun u => f.call u && g.call u⟩

/-- `Filter.__or__`: `lambda update: self(update) or other(update)`. -/
def Filter.or (f g : Filter) : Filter := ⟨fun u => f.call u || g.call u⟩

/-- `Filter.__invert__`: `lambda update: not self(update)`. -/
def Filter.inv (f : Filter) : Filter := ⟨fun u => !f.call u⟩

/-! ## Handlers and dispatch (`TgBee/bot.py`)

A handler callback is a Python coroutine `callback(bot, update_obj)`;
its behaviour is embedded as a function from the argument it receives to
either normal completion or a raised exception (carried as a message
string).  `Handler.handle` (bot.py lines 417-423) wraps the call in
`try/except`, logging `"Error in handler {name}: {e}"` on failure and
returning normally in every case. -/

/-- The argument passed to a handler callback: the whole `Update`
envelope (when `update_type is None`) or the value of the update's kind
attribute (possibly `None`). -/
inductive CallbackArg
  | whole (u : Update)
  | kind (p : Option Payload)
  deriving DecidableEq, Repr

/-- Outcome of awaiting a handler callback: normal return, or a raised
exception with its message. -/
inductive CbResult
  | ok
  | err (msg : String)
  deriving DecidableEq, Repr

/-- One record written through `logger.exception` at the dispatch
boundary: the failing handler's name and the formatted message. -/
structure LogEntry where
  handlerName : String
  message : String
  deriving DecidableEq, Repr

namespace Bot

/-- The `Handler` class of `bot.py` (lines 403-423): callback (name and
behaviour), optional filter predicate, optional target update kind. -/
structure Handler where
  name : String
  run : CallbackArg → CbResult
  filters : Option (Update → Bool) := none
  update_type : Option UpdateKind := none

/-- The tail of `Handler.check`: `if self.filters: return
self.filters(update); return True`. -/
def Handler.checkFilters (h : Handler) (u : Update) : Bool :=
  match h.filters with
  | some f => f u
  | none => true

/-- `Handler.check` of `bot.py` (lines 409-415): if a target
`update_type` is set and the update's attribute is missing or `None`,
return `False`; otherwise evaluate the filters (default `True`). -/
def Handler.check (h : Handler) (u : Update) : Bool :=
  match h.update_type with
  | some k => if !(hasattrKind u k) || (u.getKind k).isNone then false else h.checkFilters u
  | none => h.checkFilters u

/-- The argument `Handler.handle` passes to the callback (bot.py line
420): `getattr(update, self.update_type) if self.update_type else
update`. -/
def Handler.arg (h : Handler) (u : Update) : CallbackArg :=
  match h.update_type with
  | some k => .kind (u.getKind k)
  | none => .whole u

/-- Result of one `Handler.handle` call: the argument the callback was
invoked with, the log records produced, and the result that propagates
to the awaiting caller. -/
structure HandleOutcome where
  invokedArg : CallbackArg
  logs : List LogEntry
  result : CbResult
  deriving DecidableEq, Repr

/-- `Handler.handle` of `bot.py` (lines 417-423): invoke the callback
with the extracted argument inside `try/except Exception`; a raised
exception is logged as `"Error in handler {name}: {e}"` and swallowed,
so the caller always sees normal completion. -/
def Handler.handle (h : Handler) (u : Update) : HandleOutcome :=
  match h.run (h.arg u) with
  | .ok => ⟨h.arg u, [], .ok⟩
  | .err m => ⟨h.arg u, [⟨h.name, "Error in handler " ++ h.name ++ ": " ++ m⟩], .ok⟩

/-- `asyncio.gather` over the handler results: the first raised
exception (if any) propagates, otherwise normal completion. -/
def gatherResult : List CbResult → CbResult
  | [] => .ok
  | .ok :: rest => gatherResult rest
  | .err m :: _ => .err m

/-- Result of `Client.process_update` on one update: the callback
invocations performed (handler name and argument, in start order), the
log records produced, and the result seen by the awaiting worker. -/
structure DispatchOutcome where
  invocations : List (String × CallbackArg)
  logs : List LogEntry
  result : CbResult
  deriving DecidableEq, Repr

/-- `Client.process_update` of `bot.py` (lines 113-126): collect every
registered handler whose `check` passes, then run their `handle`
coroutines under `asyncio.gather`. -/
def process_update (handlers : List Handler) (u : Update) : DispatchOutcome :=
  let matched := handlers.filter (fun h => h.check u)
  let outs := matched.map (fun h => (h.name, h.handle u))
  { invocations := outs.map (fun ho => (ho.1, ho.2.invokedArg))
    logs := (outs.map (fun ho => ho.2.logs)).flatten
    result := gatherResult (outs.map (fun ho => ho.2.result)) }

/-- `Handler.handle` always passes the extracted argument to the
callback, whatever the callback then does. -/
theorem Handler.handle_invokedArg (h : Handler) (u : Update) :
    (h.handle u).invokedArg = h.arg u := by
  cases hr : h.run (h.arg u) <;> simp [Handler.handle, hr]

/-- `Handler.handle` swallows every exception: the awaiting caller
always sees normal completion. -/
theorem Handler.handle_result (h : Handler) (u : Update) :
    (h.handle u).result = .ok := by
  cases hr : h.run (h.arg u) <;> simp [Handler.handle, hr]

/-- `Handler.handle` logs exactly when the callback raises, and the log
record carries the handler's name and the formatted message. -/
theorem Handler.handle_logs (h : Handler) (u : Update) :
    (h.handle u).logs =
      match h.run (h.arg u) with
      | .ok => []
      | .err m => [⟨h.name, "Error in handler " ++ h.name ++ ": " ++ m⟩] := by
  cases hr : h.run (h.arg u) <;> simp [Handler.handle, hr]

/-- `gather` completes normally when every gathered coroutine does. -/
theorem gatherResult_ok (l : List CbResult) (hl : ∀ r ∈ l, r = .ok) :
    gatherResult l = .ok := by
  induction l with
  | nil => rfl
  | cons a rest ih =>
      have ha := hl a (List.mem_cons_self a rest)
      subst ha
      exact ih (fun r hr => hl r (List.mem_cons_of_mem _ hr))

/-- `process_update` performs one callback invocation per matched
handler, in registration order. -/
theorem process_update_invocations (handlers : List Handler) (u : Update) :
    (process_update handlers u).invocations
      = (handlers.filter (fun h => h.check u)).map (fun h => (h.name, h.arg u)) := by
  simp only [process_update, List.map_map]
  exact List.map_congr_left (fun h _ => by simp [Handler.handle_invokedArg])

/-- `process_update` always completes normally: every handler failure is
swallowed inside `Handler.handle`, so `gather` never sees an
exception. -/
theorem process_update_result (handlers : List Handler) (u : Update) :
    (process_update handlers u).result = .ok := by
  refine gatherResult_ok _ (fun r hr => ?_)
  simp only [process_update, List.map_map, List.mem_map] at hr
  obtain ⟨h, _, rfl⟩ := hr
  exact Handler.handle_result h u

/-- The dispatch log is the concatenation of the matched handlers'
`handle` logs, in registration order. -/
theorem process_update_logs (handlers : List Handler) (u : Update) :
    (process_update handlers u).logs
      = ((handlers.filter (fun h => h.check u)).map
          (fun h => (h.handle u).logs)).flatten := by
  simp only [process_update, List.map_map]
  rfl

end Bot

/-! ## The second `Handler` class (`TgBee/handlers.py`, lines 4-19)

`handlers.py` carries an older `Handler` whose `check` only tests
`hasattr(update, self.update_type)` — it never compares the attribute
against `None` — and whose `handle` computes
`getattr(update, self.update_type, update)` unconditionally. -/

namespace Handlers

/-- The `Handler` class of `handlers.py`: same record shape as the
`bot.py` one. -/
structure Handler where
  name : String
  run : CallbackArg → CbResult
  filters : Option (Update → Bool) := none
  update_type : Option UpdateKind := none

/-- The tail of `handlers.py` `Handler.check`: `if self.filters: return
self.filters(update); return True`. -/
def Handler.checkFilters (h : Handler) (u : Update) : Bool :=
  match h.filters with
  | some f => f u
  | none => true

/-- `Handler.check` of `handlers.py` (lines 10-16): if a target
`update_type` is set, only `hasattr` is tested (never whether the
attribute is `None`); then the filters are evaluated. -/
def Handler.check (h : Handler) (u : Update) : Bool :=
  match h.update_type with
  | some k => if !(hasattrKind u k) then false else h.checkFilters u
  | none => h.checkFilters u

/-- The argument computation of `handlers.py` `Handler.handle` (line
19): `getattr(update, self.update_type, update)`.  For a set update
kind the dataclass attribute always exists, so its value (possibly
`None`) is passed; with `update_type = None`, `getattr` raises
`TypeError` (attribute name must be a string) before the callback is
invoked. -/
def Handler.argFor (h : Handler) (u : Update) : Except String CallbackArg :=
  match h.update_type with
  | some k => .ok (.kind (u.getKind k))
  | none => .error "TypeError: attribute name must be string"

end Handlers

/-! ## `Update.from_dict` (`TgBee/types.py`, lines 531-562) -/

/-- The inbound JSON object for one update, as `Update.from_dict`
receives it: each kind field is present iff the corresponding key is in
the dict; `update_id` is required (`data['update_id']` is indexed
unconditionally).  Sub-object contents are carried opaquely — their
field mapping is deserialization boilerplate outside the specified
core. -/
structure UpdateData where
  update_id : Int
  message : Option Message := none
  edited_message : Option Message := none
  channel_post : Option Message := none
  edited_channel_post : Option Message := none
  inline_query : Option Obj := none
  chosen_inline_result : Option Obj := none
  callback_query : Option Obj := none
  shipping_query : Option Obj := none
  pre_checkout_query : Option Obj := none
  poll : Option Obj := none
  poll_answer : Option Obj := none
  my_chat_member : Option Obj := none
  chat_member : Option Obj := none
  chat_join_request : Option Obj := none
  deriving DecidableEq, Repr

/-- The kind value present in an inbound payload under the given key. -/
def UpdateData.getKind (d : UpdateData) : UpdateKind → Option Payload
  | .message => d.message.map .msg
  | .edited_message => d.edited_message.map .msg
  | .channel_post => d.channel_post.map .msg
  | .edited_channel_post => d.edited_channel_post.map .msg
  | .inline_query => d.inline_query.map .obj
  | .chosen_inline_result => d.chosen_inline_result.map .obj
  | .callback_query => d.callback_query.map .obj
  | .shipping_query => d.shipping_query.map .obj
  | .pre_checkout_query => d.pre_checkout_query.map .obj
  | .poll => d.poll.map .obj
  | .poll_answer => d.poll_answer.map .obj
  | .my_chat_member => d.my_chat_member.map .obj
  | .chat_member => d.chat_member.map .obj
  | .chat_join_request => d.chat_join_request.map .obj

/-- `Update.from_dict` (`types.py` lines 531-562): start from an
`Update` carrying only `update_id`, then populate each kind field whose
key is present in the payload.  Nothing enforces that only one key is
present. -/
def Update.from_dict (d : UpdateData) : Update :=
  { update_id := d.update_id
    message := d.message
    edited_message := d.edited_message
    channel_post := d.channel_post
    edited_channel_post := d.edited_channel_post
    inline_query := d.inline_query
    chosen_inline_result := d.chosen_inline_result
    callback_query := d.callback_query
    shipping_query := d.shipping_query
    pre_checkout_query := d.pre_checkout_query
    poll := d.poll
    poll_answer := d.poll_answer
    my_chat_member := d.my_chat_member
    chat_member := d.chat_member
    chat_join_request := d.chat_join_request }

/-- All fourteen update kinds, in dataclass field order. -/
def allKinds : List UpdateKind :=
  [.message, .edited_message, .channel_post, .edited_channel_post,
   .inline_query, .chosen_inline_result, .callback_query, .shipping_query,
   .pre_checkout_query, .poll, .poll_answer, .my_chat_member, .chat_member,
   .chat_join_request]

/-- The kinds populated on an `Update`. -/
def Update.populatedKinds (u : Update) : List UpdateKind :=
  allKinds.filter (fun k => (u.getKind k).isSome)

/-- The kind keys present in an inbound payload. -/
def UpdateData.presentKinds (d : UpdateData) : List UpdateKind :=
  allKinds.filter (fun k => (d.getKind k).isSome)

/-! ## Webhook request handling (`Client._handle_webhook_request`,
`bot.py` lines 218-236)

The whole body runs inside `try/except Exception`; inside it, a
non-`POST` method is answered `405`, a path other than the configured
`webhook_path` is answered `404`, then `await request.json()` either
yields the payload (which is put on the update queue before `200 OK` is
returned) or raises, landing in the `except` branch which logs and
answers `500`.  The function never touches the handler registry or the
dispatcher: the response is computed from the request alone, so the
acknowledgement never waits on a handler. -/

/-- One inbound HTTP request as `_handle_webhook_request` observes it:
method, path, and the result of `await request.json()` — a parsed
payload or a raised parse error. -/
structure WebhookRequest where
  method : String
  path : String
  body : Except String UpdateData
  deriving Repr

/-- An `aiohttp.web.Response`: body text and status code. -/
structure HttpResponse where
  text : String
  status : Nat
  deriving DecidableEq, Repr

/-- Result of `Client._handle_webhook_request`: the response returned to
the sender, the payloads put on the update queue, and the error-log
lines produced.  There is no handler-invocation component because the
source function performs none — dispatch happens later in the worker
pool. -/
structure WebhookOutcome where
  response : HttpResponse
  queued : List UpdateData
  logs : List String
  deriving DecidableEq, Repr

/-- `Client._handle_webhook_request` (`bot.py` lines 218-236). -/
def handle_webhook_request (webhook_path : String) (req : WebhookRequest) :
    WebhookOutcome :=
  if req.method ≠ "POST" then
    ⟨⟨"Method not allowed", 405⟩, [], []⟩
  else if req.path ≠ webhook_path then
    ⟨⟨"Not found", 404⟩, [], []⟩
  else
    match req.body with
    | .ok d => ⟨⟨"OK", 200⟩, [d], []⟩
    | .error e =>
        ⟨⟨"Internal Server Error", 500⟩, [],
         ["Error handling webhook request: " ++ e]⟩

/-! ## The polling loop (`Client.start_polling`, `bot.py` lines 168-216) -/

namespace Polling

/-- One element of the array returned by `getUpdates`: a JSON object
carrying an `update_id` key (valid), or anything else (warned about and
skipped: `isinstance(update, dict) and 'update_id' in update`). -/
inductive PolledItem
  | valid (update_id : Int)
  | invalid
  deriving DecidableEq, Repr

/-- The ids of the valid items of a batch, in arrival order. -/
def validIds : List PolledItem → List Int
  | [] => []
  | .valid i :: rest => i :: validIds rest
  | .invalid :: rest => validIds rest

/-- The batch-consumption loop of `Client.start_polling` (`bot.py` lines
186-191): each valid update is put on the update queue and then the
cursor is set to its `update_id + 1`; invalid items only produce a
warning.  Returns the enqueued ids in order together with the final
cursor. -/
def consumeBatch : List PolledItem → Int → List Int × Int
  | [], offset => ([], offset)
  | .valid i :: rest, _ =>
      let r := consumeBatch rest (i + 1)
      (i :: r.1, r.2)
  | .invalid :: rest, offset => consumeBatch rest offset

/-- Outcome of one `get_updates` attempt inside the retry loop: a batch,
an `aiohttp.ClientError`, any other exception, or task cancellation
(`asyncio.CancelledError` is a `BaseException`, caught only by the outer
handler). -/
inductive PollOutcome
  | success (batch : List PolledItem)
  | clientError (msg : String)
  | otherError (msg : String)
  | cancelled

/-- The polling loop's mutable state across attempts: the cursor
`offset` and the current `retry_delay` (seconds, exact rational). -/
structure PollState where
  offset : Int
  retry_delay : ℚ
  deriving DecidableEq, Repr

/-- Result of one pass over the `for attempt in range(max_retries)`
retry loop of `start_polling`: the state left behind, the sleeps
performed in order, the ids enqueued, and whether the loop was torn down
by cancellation. -/
structure RoundResult where
  state : PollState
  sleeps : List ℚ
  queued : List Int
  stopped : Bool
  deriving DecidableEq, Repr

/-- The retry loop of `Client.start_polling` (`bot.py` lines 180-211)
over the remaining values of `attempt`.  A successful attempt consumes
the batch, resets `retry_delay` to 5 and breaks; a `ClientError` sleeps
`retry_delay * 1.5 ** attempt` while `attempt < max_retries - 1`, and on
the last attempt sleeps `retry_delay * 2` and sets
`retry_delay := min(retry_delay * 1.5, 60)`; any other exception sleeps
`retry_delay` and applies the same capped update; cancellation escapes
to the outer handler. -/
def runAttempts (outs : Nat → PollOutcome) : List Nat → PollState → RoundResult
  | [], s => ⟨s, [], [], false⟩
  | a :: rest, s =>
      match outs a with
      | .success batch =>
          let r := consumeBatch batch s.offset
          ⟨⟨r.2, 5⟩, [], r.1, false⟩
      | .clientError _ =>
          if a < 4 then
            let r := runAttempts outs rest s
            ⟨r.state, s.retry_delay * (3 / 2 : ℚ) ^ a :: r.sleeps, r.queued, r.stopped⟩
          else
            let s' : PollState := ⟨s.offset, min (s.retry_delay * (3 / 2 : ℚ)) 60⟩
            let r := runAttempts outs rest s'
            ⟨r.state, s.retry_delay * 2 :: r.sleeps, r.queued, r.stopped⟩
      | .otherError _ =>
          let s' : PollState := ⟨s.offset, min (s.retry_delay * (3 / 2 : ℚ)) 60⟩
          let r := runAttempts outs rest s'
          ⟨r.state, s.retry_delay :: r.sleeps, r.queued, r.stopped⟩
      | .cancelled => ⟨s, [], [], true⟩

/-- One iteration of the outer `while True` of `start_polling`:
`max_retries = 5`, so `attempt` ranges over `[0, 1, 2, 3, 4]`.  The
round always terminates with a next state (the `while` then iterates
again) unless an attempt was cancelled. -/
def pollRound (outs : Nat → PollOutcome) (s : PollState) : RoundResult :=
  runAttempts outs [0, 1, 2, 3, 4] s

/-- `offset = 0`, `retry_delay = 5` (`bot.py` lines 170-172). -/
def initialPollState : PollState := ⟨0, 5⟩

end Polling

/-! ## The rate limiter (`Client._rate_limited_api_call`, `bot.py`
lines 100-111, with the state set up at lines 43-45)

Each outbound call runs `async with self.rate_limiter` (a semaphore of
30 permits), reads `now = time.time()` and
`since_last = now - self.last_request_time`, sleeps the remainder of the
50 ms `request_interval` if needed, awaits the HTTP call, and only after
it completes writes `self.last_request_time = time.time()`.  Between a
task's read of `last_request_time` and its write, other tasks may run:
the embedding is a small-step machine over cooperative interleavings,
one step per suspension-free segment. -/

namespace RateLimit

/-- `self.request_interval = 0.05` (50 ms). -/
def request_interval : ℚ := 1 / 20

/-- Where one task is inside `_rate_limited_api_call`. -/
inductive Phase
  | acquiring                  -- before `async with self.rate_limiter`
  | reading                    -- permit held; about to read clock and `last_request_time`
  | pausing (wake : ℚ)         -- inside `asyncio.sleep`, waking at `wake`
  | issuing                    -- spacing check passed; about to start the HTTP call
  | inFlight (startTime : ℚ)   -- `await coro` running, started at `startTime`
  | finished (startTime : ℚ)   -- call done, `last_request_time` written, permit released
  deriving DecidableEq, Repr

/-- One caller of `_rate_limited_api_call`: its phase and how long its
HTTP call takes. -/
structure TaskState where
  phase : Phase
  duration : ℚ
  deriving DecidableEq, Repr

/-- The shared state: the clock, `self.last_request_time`, the
semaphore's free permits, and the tasks. -/
structure Sys where
  time : ℚ
  last_request_time : ℚ
  permits : Nat
  tasks : List TaskState
  deriving DecidableEq, Repr

/-- Run task `i` for one suspension-free segment, if enabled.  The
`reading` segment is the body's check: `since_last = now -
last_request_time`; if it is below `request_interval` the task sleeps
until `last_request_time + request_interval`, otherwise it proceeds
straight to the call.  Completing the call advances the clock past the
call's duration, writes `last_request_time` and releases the permit. -/
def step (s : Sys) (i : Nat) : Sys :=
  match s.tasks.get? i with
  | none => s
  | some t =>
      match t.phase with
      | .acquiring =>
          if s.permits = 0 then s
          else { s with permits := s.permits - 1,
                        tasks := s.tasks.set i { t with phase := .reading } }
      | .reading =>
          if s.time - s.last_request_time < request_interval then
            { s with
              tasks := s.tasks.set i { t with phase := .pausing (s.last_request_time + request_interval) } }
          else
            { s with tasks := s.tasks.set i { t with phase := .issuing } }
      | .pausing wake =>
          { s with time := max s.time wake,
                   tasks := s.tasks.set i { t with phase := .issuing } }
      | .issuing =>
          { s with tasks := s.tasks.set i { t with phase := .inFlight s.time } }
      | .inFlight st =>
          let fin := max s.time (st + t.duration)
          { s with time := fin,
                   last_request_time := fin,
                   permits := s.permits + 1,
                   tasks := s.tasks.set i { t with phase := .finished st } }
      | .finished _ => s

/-- Run a schedule of task steps, left to right. -/
def run (s : Sys) : List Nat → Sys
  | [] => s
  | i :: rest => run (step s i) rest

/-- A fresh system: clock at 100 s, no request issued for a long time
(`last_request_time = 0`), the semaphore's 30 permits free, one task
per given call duration, all about to call. -/
def initSys (durations : List ℚ) : Sys :=
  { time := 100, last_request_time := 0, permits := 30,
    tasks := durations.map (fun d => ⟨.acquiring, d⟩) }

/-- The start time of each task's HTTP call, when it has started. -/
def startTimes (s : Sys) : List (Option ℚ) :=
  s.tasks.map (fun t =>
    match t.phase with
    | .inFlight st => some st
    | .finished st => some st
    | _ => none)

end RateLimit

/-! ## Concrete dispatch scenarios -/

/-- A message update with the given id, as the dispatcher sees it. -/
def sampleMsgUpdate (i : Int) : Update :=
  { update_id := i, message := some { text := some "hi" } }

/-- An update with no kind populated (`Update(update_id=1)`). -/
def emptyUpdate : Update := { update_id := 1 }

/-- A message handler whose callback raises `boom`. -/
def failingHandler : Bot.Handler :=
  { name := "h1", run := fun _ => .err "boom", update_type := some .message }

/-- A message handler whose callback completes normally. -/
def okHandler : Bot.Handler :=
  { name := "h2", run := fun _ => .ok, update_type := some .message }

/-- A message handler raising an exception intended as a stop-propagation
signal. -/
def stopSignalHandler : Bot.Handler :=
  { name := "stopper", run := fun _ => .err "StopPropagation",
    update_type := some .message }

/-- A message handler registered after `stopSignalHandler`. -/
def laterHandler : Bot.Handler :=
  { name := "later", run := fun _ => .ok, update_type := some .message }

/-- A filterless message handler under the `bot.py` implementation. -/
def botMsgHandler : Bot.Handler :=
  { name := "m", run := fun _ => .ok, update_type := some .message }

/-- The same filterless message handler under the `handlers.py`
implementation. -/
def handlersMsgHandler : Handlers.Handler :=
  { name := "m", run := fun _ => .ok, update_type := some .message }

/-- An inbound payload carrying two kind keys at once. -/
def twoKindPayload : UpdateData :=
  { update_id := 9, message := some { text := some "x" },
    poll := some { tag := 3 } }

/-- An inbound payload carrying a single kind key. -/
def oneKindPayload : UpdateData :=
  { update_id := 10, message := some { text := some "y" } }

end TgBee

namespace TgBee

/-- C5: Filter composition is a closed boolean algebra: conjunction,
disjunction and negation of filters evaluate to the boolean combination
of the operands' values, and in particular `A & ~B` matches an update
iff `A` matches it and `B` does not.  (Closure is by construction:
`Filter.and`, `Filter.or`, `Filter.inv` return `Filter`s.) -/
theorem filter_algebra_closed_boolean (A B : Filter) (u : Update) :
    (A.and B).call u = (A.call u && B.call u)
    ∧ (A.or B).call u = (A.call u || B.call u)
    ∧ (A.inv).call u = !(A.call u)
    ∧ ((A.and B.inv).call u = true ↔ (A.call u = true ∧ B.call u = false)) := by
  refine ⟨rfl, rfl, rfl, ?_⟩
  simp [Filter.and, Filter.inv, Filter.call]

/-- C2: a handler record is in an update's match set iff its target
kind is populated on the update (or it has no target kind) and its
predicate, when present, evaluates true; dispatch invokes exactly the
match set, in registration order, and always completes normally — in
particular an update matching zero handlers completes with no
invocation and no error. -/
theorem dispatch_invokes_exactly_match_set
    (handlers : List Bot.Handler) (u : Update) :
    (Bot.process_update handlers u).invocations
      = (handlers.filter (fun h => h.check u)).map (fun h => (h.name, h.arg u))
    ∧ (Bot.process_update handlers u).result = .ok
    ∧ ∀ h : Bot.Handler, h.check u = true ↔
        ((h.update_type = none ∨ ∃ k, h.update_type = some k ∧ (u.getKind k).isSome)
         ∧ (h.filters = none ∨ ∃ f, h.filters = some f ∧ f u = true)) := by
  refine ⟨Bot.process_update_invocations handlers u,
    Bot.process_update_result handlers u, ?_⟩
  intro h
  rcases hut : h.update_type with _ | k
  · rcases hf : h.filters with _ | f <;>
      simp [Bot.Handler.check, Bot.Handler.checkFilters, hut, hf]
  · rcases hk : u.getKind k with _ | p <;>
      rcases hf : h.filters with _ | f <;>
        simp [Bot.Handler.check, Bot.Handler.checkFilters, hasattrKind, hut, hf, hk]

/-- C3 counterexample: the failure log produced at the dispatch boundary
does not carry the update id — two dispatches of the same failing
handler on updates with different `update_id`s produce identical log
records, and the record holds only the handler name and the exception
text. -/
theorem handler_error_log_lacks_update_id :
    (Bot.process_update [failingHandler] (sampleMsgUpdate 1)).logs
      = (Bot.process_update [failingHandler] (sampleMsgUpdate 2)).logs
    ∧ (sampleMsgUpdate 1).update_id ≠ (sampleMsgUpdate 2).update_id
    ∧ (Bot.process_update [failingHandler] (sampleMsgUpdate 1)).logs
      = [⟨"h1", "Error in handler h1: boom"⟩] := by
  refine ⟨rfl, by decide, rfl⟩

/-- C3 amended: when an update matches handlers `h1` and `h2` and `h1`'s
callback raises, the exception is caught at the dispatch boundary and
logged with the handler's name and the exception text (not the update
id), `h2` is still invoked with its argument, and no exception
propagates to the worker loop. -/
theorem handler_failure_isolated
    (handlers : List Bot.Handler) (u : Update)
    (h1 h2 : Bot.Handler) (m : String)
    (h1mem : h1 ∈ handlers) (h2mem : h2 ∈ handlers)
    (h1match : h1.check u = true) (h2match : h2.check u = true)
    (h1fail : h1.run (h1.arg u) = .err m) :
    (h2.name, h2.arg u) ∈ (Bot.process_update handlers u).invocations
    ∧ (⟨h1.name, "Error in handler " ++ h1.name ++ ": " ++ m⟩ : LogEntry)
        ∈ (Bot.process_update handlers u).logs
    ∧ (Bot.process_update handlers u).result = .ok := by
  refine ⟨?_, ?_, Bot.process_update_result handlers u⟩
  · rw [Bot.process_update_invocations]
    exact List.mem_map_of_mem _ (List.mem_filter.mpr ⟨h2mem, h2match⟩)
  · rw [Bot.process_update_logs]
    rw [List.mem_flatten]
    refine ⟨(h1.handle u).logs,
      List.mem_map_of_mem _ (List.mem_filter.mpr ⟨h1mem, h1match⟩), ?_⟩
    rw [Bot.Handler.handle_logs, h1fail]
    exact List.mem_singleton.mpr rfl

/-- Witness for `handler_failure_isolated` at a concrete failing/passing
handler pair. -/
theorem handler_failure_isolated_witness :
    ("h2", Bot.Handler.arg okHandler (sampleMsgUpdate 5))
        ∈ (Bot.process_update [failingHandler, okHandler] (sampleMsgUpdate 5)).invocations
    ∧ (⟨"h1", "Error in handler h1: boom"⟩ : LogEntry)
        ∈ (Bot.process_update [failingHandler, okHandler] (sampleMsgUpdate 5)).logs
    ∧ (Bot.process_update [failingHandler, okHandler] (sampleMsgUpdate 5)).result = .ok :=
  handler_failure_isolated [failingHandler, okHandler] (sampleMsgUpdate 5)
    failingHandler okHandler "boom"
    (List.mem_cons_self _ _)
    (List.mem_cons_of_mem _ (List.mem_cons_self _ _))
    rfl rfl rfl

/-- C4 counterexample: raising an exception named as a stop signal does
not skip anything — the handler registered after the raiser (not yet
started in start order) is still invoked, and the signal is logged
through the generic handler-error path, indistinguishable from any other
exception. -/
theorem stop_signal_not_honored :
    (Bot.process_update [stopSignalHandler, laterHandler] (sampleMsgUpdate 7)).invocations
      = [("stopper", .kind (some (.msg { text := some "hi" }))),
         ("later", .kind (some (.msg { text := some "hi" })))]
    ∧ (Bot.process_update [stopSignalHandler, laterHandler] (sampleMsgUpdate 7)).logs
      = [⟨"stopper", "Error in handler stopper: StopPropagation"⟩] := by
  refine ⟨rfl, rfl⟩

/-- C4 amended: the dispatcher has no distinguished stop-propagation
signal: for every handler list and update, every matched handler is
invoked (none skipped), any exception a callback raises — whatever its
message — is handled by the generic error path and logged as a handler
error, and dispatch completes normally. -/
theorem no_stop_signal_every_matched_handler_invoked
    (handlers : List Bot.Handler) (u : Update) :
    (Bot.process_update handlers u).invocations.length
      = (handlers.filter (fun h => h.check u)).length
    ∧ (Bot.process_update handlers u).logs
      = ((handlers.filter (fun h => h.check u)).map
          (fun h => match h.run (h.arg u) with
            | .ok => ([] : List LogEntry)
            | .err m => [⟨h.name, "Error in handler " ++ h.name ++ ": " ++ m⟩])).flatten
    ∧ (Bot.process_update handlers u).result = .ok := by
  refine ⟨?_, ?_, Bot.process_update_result handlers u⟩
  · rw [Bot.process_update_invocations, List.length_map]
  · rw [Bot.process_update_logs]
    exact congrArg List.flatten
      (List.map_congr_left (fun h _ => Bot.Handler.handle_logs h u))

/-- C10 counterexample: the two `Handler.check` implementations are not
extensionally equivalent — on an update whose `message` field is `None`,
a filterless message handler fails `bot.py`'s `check` (which tests the
attribute against `None`) but passes `handlers.py`'s `check` (which only
tests `hasattr`, always true on the dataclass). -/
theorem two_handler_checks_disagree :
    Bot.Handler.check botMsgHandler emptyUpdate = false
    ∧ Handlers.Handler.check handlersMsgHandler emptyUpdate = true := ⟨rfl, rfl⟩

/-- C10 amended: for records built from the same components, the two
`check`s agree whenever the record has no target kind or the update
populates the target kind; when a target kind is set but unpopulated,
`bot.py` answers `false` while `handlers.py` still evaluates the
predicate.  With a target kind set, both `handle`s pass the same payload
argument (the kind attribute's value); with no target kind, `bot.py`
passes the whole update while `handlers.py`'s
`getattr(update, None, update)` raises `TypeError` before invoking the
callback. -/
theorem handler_variants_agree_iff_kind_populated
    (name : String) (run : CallbackArg → CbResult)
    (filters : Option (Update → Bool)) (ut : Option UpdateKind) (u : Update) :
    ((ut = none ∨ ∃ k, ut = some k ∧ (u.getKind k).isSome) →
      (Bot.Handler.mk name run filters ut).check u
        = (Handlers.Handler.mk name run filters ut).check u)
    ∧ (∀ k, ut = some k → u.getKind k = none →
        (Bot.Handler.mk name run filters ut).check u = false
        ∧ (Handlers.Handler.mk name run filters ut).check u
            = (Handlers.Handler.mk name run filters ut).checkFilters u)
    ∧ (∀ k, ut = some k →
        (Handlers.Handler.mk name run filters ut).argFor u
          = .ok ((Bot.Handler.mk name run filters ut).arg u))
    ∧ (ut = none →
        (Bot.Handler.mk name run filters ut).arg u = .whole u
        ∧ (Handlers.Handler.mk name run filters ut).argFor u
            = .error "TypeError: attribute name must be string") := by
  refine ⟨?_, ?_, ?_, ?_⟩
  · rintro (rfl | ⟨k, rfl, hsome⟩)
    · rfl
    · simp [Bot.Handler.check, Handlers.Handler.check, hasattrKind,
        Bot.Handler.checkFilters, Handlers.Handler.checkFilters,
        Option.isNone_iff_eq_none, Option.isSome_iff_ne_none.mp hsome]
  · rintro k rfl hnone
    constructor
    · simp [Bot.Handler.check, hasattrKind, hnone]
    · simp [Handlers.Handler.check, hasattrKind]
  · rintro k rfl
    rfl
  · rintro rfl
    exact ⟨rfl, rfl⟩

/-- Witness for `handler_variants_agree_iff_kind_populated` on a
populated message update and on a kindless record. -/
theorem handler_variants_agree_witness :
    (Bot.Handler.mk "w" (fun _ => .ok) none (some .message)).check (sampleMsgUpdate 3)
      = (Handlers.Handler.mk "w" (fun _ => .ok) none (some .message)).check (sampleMsgUpdate 3)
    ∧ (Handlers.Handler.mk "w" (fun _ => .ok) none (some .message)).argFor (sampleMsgUpdate 3)
      = .ok ((Bot.Handler.mk "w" (fun _ => .ok) none (some .message)).arg (sampleMsgUpdate 3)) := by
  have h := handler_variants_agree_iff_kind_populated "w" (fun _ => .ok)
    none (some .message) (sampleMsgUpdate 3)
  exact ⟨h.1 (Or.inr ⟨.message, rfl, rfl⟩), h.2.2.1 .message rfl⟩

/-- C9 counterexample: `Update.from_dict` performs no at-most-one
enforcement — a payload carrying both a `message` and a `poll` key
deserializes to an `Update` with two kind variants populated. -/
theorem from_dict_two_kinds_populated :
    (Update.from_dict twoKindPayload).populatedKinds = [.message, .poll]
    ∧ ¬((Update.from_dict twoKindPayload).populatedKinds.length ≤ 1) := by
  refine ⟨rfl, by decide⟩

/-- C9 amended: `Update.from_dict` populates exactly the kind fields
whose keys are present in the inbound payload; therefore an `Update`
deserialized from a payload carrying at most one kind key has at most
one kind variant populated (all others `None`). -/
theorem from_dict_populates_exactly_present_kinds (d : UpdateData)
    (hone : d.presentKinds.length ≤ 1) :
    (∀ k, (Update.from_dict d).getKind k = d.getKind k)
    ∧ (Update.from_dict d).populatedKinds.length ≤ 1 := by
  have hk : ∀ k, (Update.from_dict d).getKind k = d.getKind k := by
    intro k
    cases k <;> rfl
  refine ⟨hk, ?_⟩
  have : (Update.from_dict d).populatedKinds = d.presentKinds := by
    unfold Update.populatedKinds UpdateData.presentKinds
    exact List.filter_congr (fun k _ => by rw [hk k])
  rw [this]
  exact hone

/-- Witness for `from_dict_populates_exactly_present_kinds` on a
single-kind payload. -/
theorem from_dict_single_kind_witness :
    (∀ k, (Update.from_dict oneKindPayload).getKind k = oneKindPayload.getKind k)
    ∧ (Update.from_dict oneKindPayload).populatedKinds.length ≤ 1 :=
  from_dict_populates_exactly_present_kinds oneKindPayload (by decide)

/-- C6: the webhook endpoint answers `405` to a non-`POST` method, `404`
to a `POST` on a path other than the configured one (enqueueing
nothing), `200 OK` after enqueueing the parsed payload — the response is
computed from the request alone, never waiting on a handler — and `500`
on a body parse failure, logging it; in every case a response is
produced, so the listener keeps running. -/
theorem webhook_status_contract (p : String) (req : WebhookRequest) :
    (req.method ≠ "POST" →
      (handle_webhook_request p req).response = ⟨"Method not allowed", 405⟩
      ∧ (handle_webhook_request p req).queued = [])
    ∧ (req.method = "POST" → req.path ≠ p →
      (handle_webhook_request p req).response = ⟨"Not found", 404⟩
      ∧ (handle_webhook_request p req).queued = [])
    ∧ (∀ d, req.method = "POST" → req.path = p → req.body = .ok d →
      (handle_webhook_request p req).response = ⟨"OK", 200⟩
      ∧ (handle_webhook_request p req).queued = [d])
    ∧ (∀ e, req.method = "POST" → req.path = p → req.body = .error e →
      (handle_webhook_request p req).response = ⟨"Internal Server Error", 500⟩
      ∧ (handle_webhook_request p req).queued = []
      ∧ (handle_webhook_request p req).logs
          = ["Error handling webhook request: " ++ e])
    ∧ (handle_webhook_request p req).response.status ∈ ([200, 404, 405, 500] : List Nat) := by
  refine ⟨?_, ?_, ?_, ?_, ?_⟩
  · intro hm
    simp [handle_webhook_request, hm]
  · intro hm hp
    simp [handle_webhook_request, hm, hp]
  · intro d hm hp hb
    simp [handle_webhook_request, hm, hp, hb]
  · intro e hm hp hb
    simp [handle_webhook_request, hm, hp, hb]
  · unfold handle_webhook_request
    split
    · simp
    · split
      · simp
      · rcases req.body with d | e <;> simp

/-- Witness for `webhook_status_contract` across the four request
shapes. -/
theorem webhook_status_contract_witness :
    ((handle_webhook_request "/webhook"
        ⟨"GET", "/webhook", .ok oneKindPayload⟩).response = ⟨"Method not allowed", 405⟩
      ∧ (handle_webhook_request "/webhook"
        ⟨"GET", "/webhook", .ok oneKindPayload⟩).queued = [])
    ∧ ((handle_webhook_request "/webhook"
        ⟨"POST", "/other", .ok oneKindPayload⟩).response = ⟨"Not found", 404⟩
      ∧ (handle_webhook_request "/webhook"
        ⟨"POST", "/other", .ok oneKindPayload⟩).queued = [])
    ∧ ((handle_webhook_request "/webhook"
        ⟨"POST", "/webhook", .ok oneKindPayload⟩).response = ⟨"OK", 200⟩
      ∧ (handle_webhook_request "/webhook"
        ⟨"POST", "/webhook", .ok oneKindPayload⟩).queued = [oneKindPayload])
    ∧ ((handle_webhook_request "/webhook"
        ⟨"POST", "/webhook", .error "bad json"⟩).response = ⟨"Internal Server Error", 500⟩
      ∧ (handle_webhook_request "/webhook"
        ⟨"POST", "/webhook", .error "bad json"⟩).queued = []
      ∧ (handle_webhook_request "/webhook"
        ⟨"POST", "/webhook", .error "bad json"⟩).logs
          = ["Error handling webhook request: bad json"]) :=
  ⟨(webhook_status_contract "/webhook" ⟨"GET", "/webhook", .ok oneKindPayload⟩).1
      (by decide),
   (webhook_status_contract "/webhook" ⟨"POST", "/other", .ok oneKindPayload⟩).2.1
      rfl (by decide),
   (webhook_status_contract "/webhook" ⟨"POST", "/webhook", .ok oneKindPayload⟩).2.2.1
      oneKindPayload rfl rfl rfl,
   (webhook_status_contract "/webhook" ⟨"POST", "/webhook", .error "bad json"⟩).2.2.2.1
      "bad json" rfl rfl rfl⟩

/-- The loop enqueues exactly the valid items of the batch, in arrival
order. -/
theorem Polling.consumeBatch_queued (batch : List Polling.PolledItem) (init : Int) :
    (Polling.consumeBatch batch init).1 = Polling.validIds batch := by
  induction batch generalizing init with
  | nil => rfl
  | cons hd tl ih =>
      cases hd with
      | valid i => simp [Polling.consumeBatch, Polling.validIds, ih]
      | invalid => simp [Polling.consumeBatch, Polling.validIds, ih]

/-- After consuming a batch the cursor is either untouched (and nothing
was enqueued) or equals `i + 1` for some enqueued id `i`: the cursor
only ever advances past enqueued updates. -/
theorem Polling.consumeBatch_offset (batch : List Polling.PolledItem) (init : Int) :
    ((Polling.consumeBatch batch init).1 = []
      ∧ (Polling.consumeBatch batch init).2 = init)
    ∨ ∃ i ∈ (Polling.consumeBatch batch init).1,
        (Polling.consumeBatch batch init).2 = i + 1 := by
  induction batch generalizing init with
  | nil => exact Or.inl ⟨rfl, rfl⟩
  | cons hd tl ih =>
      cases hd with
      | valid i =>
          rcases ih (i + 1) with ⟨-, hoff⟩ | ⟨j, hj, hoff⟩
          · exact Or.inr ⟨i, by simp [Polling.consumeBatch], by
              simp [Polling.consumeBatch, hoff]⟩
          · exact Or.inr ⟨j, by simp [Polling.consumeBatch, hj], by
              simp [Polling.consumeBatch, hoff]⟩
      | invalid => simpa [Polling.consumeBatch] using ih init

/-- On a batch whose valid ids arrive in non-decreasing order, the final
cursor is strictly beyond every enqueued id. -/
theorem Polling.consumeBatch_lt (batch : List Polling.PolledItem) (init : Int)
    (hsorted : List.Sorted (· ≤ ·) (Polling.validIds batch)) :
    ∀ i ∈ (Polling.consumeBatch batch init).1,
      i < (Polling.consumeBatch batch init).2 := by
  induction batch generalizing init with
  | nil => intro i hi; simp [Polling.consumeBatch] at hi
  | cons hd tl ih =>
      cases hd with
      | valid i =>
          have hs := (List.sorted_cons.mp (by
            simpa [Polling.validIds] using hsorted))
          intro j hj
          simp only [Polling.consumeBatch, List.mem_cons] at hj ⊢
          rcases hj with rfl | hj
          · rcases Polling.consumeBatch_offset tl (j + 1) with ⟨-, hoff⟩ | ⟨k, hk, hoff⟩
            · rw [hoff]; omega
            · have hk' : k ∈ Polling.validIds tl := by
                rwa [Polling.consumeBatch_queued] at hk
              have := hs.1 k hk'
              rw [hoff]; omega
          · exact ih (i + 1) hs.2 j hj
      | invalid =>
          have hs : List.Sorted (· ≤ ·) (Polling.validIds tl) := by
            simpa [Polling.validIds] using hsorted
          intro j hj
          simp only [Polling.consumeBatch] at hj ⊢
          exact ih init hs j hj

/-- Consuming `pre ++ post` is consuming `pre` and then consuming `post`
from the cursor left by `pre`: the loop state after any prefix is
`consumeBatch pre init`. -/
theorem Polling.consumeBatch_append (pre post : List Polling.PolledItem) (init : Int) :
    Polling.consumeBatch (pre ++ post) init
      = ((Polling.consumeBatch pre init).1
           ++ (Polling.consumeBatch post (Polling.consumeBatch pre init).2).1,
         (Polling.consumeBatch post (Polling.consumeBatch pre init).2).2) := by
  induction pre generalizing init with
  | nil => simp [Polling.consumeBatch]
  | cons hd tl ih =>
      cases hd with
      | valid i => simp [Polling.consumeBatch, ih]
      | invalid => simp [Polling.consumeBatch, ih]

/-- C1: in the polling loop, every valid update of a received batch is
enqueued, in arrival order, before the cursor is advanced past it; with
the source's non-decreasing `update_id` order, after consuming a batch
the cursor is strictly beyond every enqueued id and equals
`max(update_id) + 1` over the enqueued updates (it is untouched when
nothing was enqueued); and at every intermediate point — after any
prefix of the batch — the cursor is the initial offset or `i + 1` for
an already-enqueued `i`, never past an update that was not enqueued. -/
theorem polling_cursor_contract (batch : List Polling.PolledItem) (init : Int)
    (hsorted : List.Sorted (· ≤ ·) (Polling.validIds batch)) :
    (Polling.consumeBatch batch init).1 = Polling.validIds batch
    ∧ (∀ i ∈ (Polling.consumeBatch batch init).1,
        i < (Polling.consumeBatch batch init).2)
    ∧ ((Polling.consumeBatch batch init).1 = [] →
        (Polling.consumeBatch batch init).2 = init)
    ∧ ((Polling.consumeBatch batch init).1 ≠ [] →
        ∃ i ∈ (Polling.consumeBatch batch init).1,
          (Polling.consumeBatch batch init).2 = i + 1)
    ∧ (∀ pre post, batch = pre ++ post →
        Polling.consumeBatch batch init
          = ((Polling.consumeBatch pre init).1
               ++ (Polling.consumeBatch post (Polling.consumeBatch pre init).2).1,
             (Polling.consumeBatch post (Polling.consumeBatch pre init).2).2)
        ∧ ((Polling.consumeBatch pre init).2 = init
           ∨ ∃ i ∈ (Polling.consumeBatch pre init).1,
               (Polling.consumeBatch pre init).2 = i + 1)) := by
  refine ⟨Polling.consumeBatch_queued batch init,
    Polling.consumeBatch_lt batch init hsorted, ?_, ?_, ?_⟩
  · intro hempty
    rcases Polling.consumeBatch_offset batch init with ⟨-, hoff⟩ | ⟨i, hi, -⟩
    · exact hoff
    · rw [hempty] at hi
      simp at hi
  · intro hne
    rcases Polling.consumeBatch_offset batch init with ⟨hempty, -⟩ | h
    · exact absurd hempty hne
    · exact h
  · rintro pre post rfl
    refine ⟨Polling.consumeBatch_append pre post init, ?_⟩
    rcases Polling.consumeBatch_offset pre init with ⟨-, hoff⟩ | h
    · exact Or.inl hoff
    · exact Or.inr h

/-- Witness for `polling_cursor_contract` on the batch
`[{update_id:5}, <malformed>, {update_id:6}]` from cursor `0`. -/
theorem polling_cursor_contract_witness :
    (Polling.consumeBatch [.valid 5, .invalid, .valid 6] 0).1 = [5, 6]
    ∧ (Polling.consumeBatch [.valid 5, .invalid, .valid 6] 0).2 = 7 := by
  have h := polling_cursor_contract [.valid 5, .invalid, .valid 6] 0 (by decide)
  exact ⟨h.1, by decide⟩

/-- A retry round tears the loop down only when some attempt was
cancelled: no transient failure stops it. -/
theorem Polling.runAttempts_stopped (outs : Nat → Polling.PollOutcome)
    (l : List Nat) (s : Polling.PollState)
    (h : (Polling.runAttempts outs l s).stopped = true) :
    ∃ a ∈ l, outs a = .cancelled := by
  induction l generalizing s with
  | nil => simp [Polling.runAttempts] at h
  | cons a rest ih =>
      rcases ho : outs a with batch | m | m | _
      · simp [Polling.runAttempts, ho] at h
      · by_cases ha : a < 4
        · simp only [Polling.runAttempts, ho, if_pos ha] at h
          obtain ⟨b, hb, hc⟩ := ih _ h
          exact ⟨b, List.mem_cons_of_mem _ hb, hc⟩
        · simp only [Polling.runAttempts, ho, if_neg ha] at h
          obtain ⟨b, hb, hc⟩ := ih _ h
          exact ⟨b, List.mem_cons_of_mem _ hb, hc⟩
      · simp only [Polling.runAttempts, ho] at h
        obtain ⟨b, hb, hc⟩ := ih _ h
        exact ⟨b, List.mem_cons_of_mem _ hb, hc⟩
      · exact ⟨a, List.mem_cons_self a rest, ho⟩

/-- The capped update `min(retry_delay * 1.5, 60)` keeps the backoff
base at or below 60 seconds across rounds. -/
theorem Polling.runAttempts_cap (outs : Nat → Polling.PollOutcome)
    (l : List Nat) (s : Polling.PollState) (h : s.retry_delay ≤ 60) :
    (Polling.runAttempts outs l s).state.retry_delay ≤ 60 := by
  induction l generalizing s with
  | nil => simpa [Polling.runAttempts] using h
  | cons a rest ih =>
      rcases ho : outs a with batch | m | m | _
      · simp only [Polling.runAttempts, ho]
        norm_num
      · by_cases ha : a < 4
        · simp only [Polling.runAttempts, ho, if_pos ha]
          exact ih s h
        · simp only [Polling.runAttempts, ho, if_neg ha]
          exact ih _ (min_le_right _ _)
      · simp only [Polling.runAttempts, ho]
        exact ih _ (min_le_right _ _)
      · simpa [Polling.runAttempts, ho] using h

/-- A round performs at most one sleep per attempt. -/
theorem Polling.runAttempts_sleeps_bound (outs : Nat → Polling.PollOutcome)
    (l : List Nat) (s : Polling.PollState) :
    (Polling.runAttempts outs l s).sleeps.length ≤ l.length := by
  induction l generalizing s with
  | nil => simp [Polling.runAttempts]
  | cons a rest ih =>
      rcases ho : outs a with batch | m | m | _
      · simp [Polling.runAttempts, ho]
      · by_cases ha : a < 4
        · simp only [Polling.runAttempts, ho, if_pos ha, List.length_cons]
          exact Nat.succ_le_succ (ih s)
        · simp only [Polling.runAttempts, ho, if_neg ha, List.length_cons]
          exact Nat.succ_le_succ (ih _)
      · simp only [Polling.runAttempts, ho, List.length_cons]
        exact Nat.succ_le_succ (ih _)
      · simp [Polling.runAttempts, ho]

/-- C7: each polling round performs at most `max_retries = 5` immediate
retries, with delays growing from the current base by the fixed factor
`1.5` per attempt (`d, d*1.5, d*1.5², d*1.5³`, then `d*2` on the last
attempt) when every attempt hits a transport error; the persistent
backoff base is updated to `min(base * 1.5, 60)` — capped at 60s — and
the round leaves the loop running: it stops only when an attempt is
cancelled, never because of a transient failure; a successful first
attempt resets the base to 5 and sleeps nothing. -/
theorem polling_backoff_contract (outs : Nat → Polling.PollOutcome)
    (s : Polling.PollState) :
    ((Polling.pollRound outs s).stopped = true →
      ∃ a ∈ [0, 1, 2, 3, 4], outs a = .cancelled)
    ∧ (s.retry_delay ≤ 60 → (Polling.pollRound outs s).state.retry_delay ≤ 60)
    ∧ (Polling.pollRound outs s).sleeps.length ≤ 5
    ∧ (∀ m, (∀ a, outs a = .clientError m) →
        (Polling.pollRound outs s).sleeps
          = [s.retry_delay, s.retry_delay * (3 / 2), s.retry_delay * (3 / 2) ^ 2,
             s.retry_delay * (3 / 2) ^ 3, s.retry_delay * 2]
        ∧ (Polling.pollRound outs s).state.retry_delay
            = min (s.retry_delay * (3 / 2)) 60
        ∧ (Polling.pollRound outs s).stopped = false)
    ∧ (∀ batch, outs 0 = .success batch →
        (Polling.pollRound outs s).state.retry_delay = 5
        ∧ (Polling.pollRound outs s).sleeps = []
        ∧ (Polling.pollRound outs s).queued
            = (Polling.consumeBatch batch s.offset).1) := by
  refine ⟨Polling.runAttempts_stopped outs _ s,
    Polling.runAttempts_cap outs _ s,
    Polling.runAttempts_sleeps_bound outs _ s, ?_, ?_⟩
  · intro m hm
    refine ⟨?_, ?_, ?_⟩ <;>
      simp [Polling.pollRound, Polling.runAttempts, hm 0, hm 1, hm 2, hm 3, hm 4]
  · intro batch h0
    refine ⟨?_, ?_, ?_⟩ <;>
      simp [Polling.pollRound, Polling.runAttempts, h0]

/-- Witness for `polling_backoff_contract`: a cancelled round, an
all-`ClientError` round from the initial state, and a successful first
attempt. -/
theorem polling_backoff_contract_witness :
    (∃ a ∈ [0, 1, 2, 3, 4], (fun _ => Polling.PollOutcome.cancelled) a
        = Polling.PollOutcome.cancelled)
    ∧ ((Polling.pollRound (fun _ => .clientError "net") Polling.initialPollState).sleeps
        = [5, 5 * (3 / 2), 5 * (3 / 2) ^ 2, 5 * (3 / 2) ^ 3, 5 * 2]
      ∧ (Polling.pollRound (fun _ => .clientError "net")
          Polling.initialPollState).state.retry_delay = min (5 * (3 / 2)) 60
      ∧ (Polling.pollRound (fun _ => .clientError "net")
          Polling.initialPollState).stopped = false)
    ∧ ((Polling.pollRound (fun _ => .success [.valid 3])
          Polling.initialPollState).state.retry_delay = 5
      ∧ (Polling.pollRound (fun _ => .success [.valid 3])
          Polling.initialPollState).sleeps = []
      ∧ (Polling.pollRound (fun _ => .success [.valid 3])
          Polling.initialPollState).queued
        = (Polling.consumeBatch [.valid 3] Polling.initialPollState.offset).1) :=
  ⟨(polling_backoff_contract (fun _ => .cancelled) Polling.initialPollState).1 rfl,
   (polling_backoff_contract (fun _ => .clientError "net")
      Polling.initialPollState).2.2.2.1 "net" (fun _ => rfl),
   (polling_backoff_contract (fun _ => .success [.valid 3])
      Polling.initialPollState).2.2.2.2 [.valid 3] rfl⟩

/-- C8: the minimum inter-call spacing is not enforced under
concurrency.  The rate limiter reads `last_request_time` before the
call and writes it only after the call completes, so two concurrent
callers both pass the spacing check against the same stale timestamp:
in the interleaving below (each caller runs to its next suspension
point in turn) both HTTP calls start at the same instant — spacing 0,
below the configured 50 ms — while both hold semaphore permits (28 of
30 free, within the permit bound). -/
theorem rate_limiter_spacing_race :
    RateLimit.startTimes
        (RateLimit.run (RateLimit.initSys [1, 1]) [0, 1, 0, 1, 0, 1])
      = [some 100, some 100]
    ∧ (RateLimit.run (RateLimit.initSys [1, 1]) [0, 1, 0, 1, 0, 1]).permits = 28
    ∧ (0 : ℚ) < RateLimit.request_interval := by
  refine ⟨?_, ?_, by norm_num [RateLimit.request_interval]⟩ <;>
    norm_num [RateLimit.run, RateLimit.step, RateLimit.initSys,
      RateLimit.startTimes, RateLimit.request_interval]

end TgBee
